import Mathlib

/-!
Shallow embedding of the FishingForecast computational core
(src/services/moon.ts, src/services/weather.ts, src/services/tides.ts).

JavaScript numbers are modelled as exact rationals (ℚ); timestamps
(millisecond epoch values, `Date.getTime()`) as integers (ℤ).
JS operators are modelled explicitly:
  * `a % b`   : truncated remainder (`jsfmod`),
  * `Math.round x` : `⌊x + 1/2⌋` (round half toward +∞, exact JS semantics),
  * `x || d`  : `d` when `x` is absent or `0` (`jsOr`),
  * `Number(h.toFixed 2)` : rounding to two decimals (`round2`, modelled with
    the same half-up rounding; every claim applies it at exact 2-decimal values).
The transcendental `Math.cos` has no exact rational counterpart; it is passed
as an explicit function parameter `mcos` so all theorems hold for every
interpretation of it.  The wall-clock read `new Date()` performed inside
`getNextPhaseDate` is passed as an explicit parameter `wallNow`.
-/

namespace FishingForecast

/-- JS truncation toward zero, as used by the `%` operator on numbers. -/
def jsTrunc (q : ℚ) : ℤ :=
  if 0 ≤ q then ⌊q⌋ else ⌈q⌉

/-- JS `a % b` on numbers: truncated remainder `a - b * trunc (a / b)`. -/
def jsfmod (a b : ℚ) : ℚ :=
  a - b * (jsTrunc (a / b) : ℚ)

/-- JS `Math.round x = ⌊x + 1/2⌋` (round half toward positive infinity). -/
def jsRound (q : ℚ) : ℤ :=
  ⌊q + 1/2⌋

/-- JS `x || d` for an optional numeric field: the default replaces both an
absent value and an exact `0` (both are falsy). -/
def jsOr (x : Option ℚ) (d : ℚ) : ℚ :=
  match x with
  | some v => if v = 0 then d else v
  | none => d

/-- JS `Number(h.toFixed 2)`: round to two decimal places. -/
def round2 (q : ℚ) : ℚ :=
  (jsRound (q * 100) : ℚ) / 100

/-! ## moon.ts -/

/-- The synodic-month float literal `29.530588853` from moon.ts. -/
def synodicMonth : ℚ := 29530588853 / 1000000000

/-- Epoch milliseconds of the reference new moon `2000-01-06T18:14:00.000Z`. -/
def knownNewMoonMs : ℤ := 947182440000

/-- Milliseconds per day, `1000 * 60 * 60 * 24`. -/
def msPerDay : ℚ := 86400000

/-- moon.ts `getMoonAge`: days since the reference new moon, reduced by the
JS `%` operator modulo the synodic month. -/
def getMoonAge (date : ℤ) : ℚ :=
  jsfmod (((date - knownNewMoonMs : ℤ) : ℚ) / msPerDay) synodicMonth

/-- moon.ts `getNextPhaseDate`.  The source reads the wall clock
(`const now = new Date()`) inside this function; that read is the explicit
parameter `wallNow` (epoch ms).  Returns the epoch-ms value of the
constructed `Date`. -/
def getNextPhaseDate (wallNow : ℤ) (currentAge targetAge : ℚ) : ℚ :=
  let d := targetAge - currentAge
  let daysUntilPhase := if d < 0 then d + synodicMonth else d
  (wallNow : ℚ) + daysUntilPhase * 24 * 60 * 60 * 1000

/-- The float literal `Math.PI` as printed, `3.141592653589793`. -/
def mathPI : ℚ := 3141592653589793 / 1000000000000000

/-- The `MoonPhase` record of types.ts; the two `Date` fields are epoch-ms
values (rational, since they are built from fractional-day arithmetic). -/
structure MoonPhase where
  phase : String
  illumination : ℤ
  age : ℚ
  nextFullMoon : ℚ
  nextNewMoon : ℚ
deriving DecidableEq

/-- moon.ts `getMoonPhase`.  `mcos` stands for `Math.cos`; `wallNow` is the
wall-clock instant read by the two embedded `getNextPhaseDate` calls. -/
def getMoonPhase (mcos : ℚ → ℚ) (wallNow : ℤ) (date : ℤ) : MoonPhase :=
  let age := getMoonAge date
  let illumination := mcos ((age / synodicMonth) * 2 * mathPI - mathPI) * (1/2) + 1/2
  let phase :=
    if age < 184566 / 100000 then "New Moon"
    else if age < 553699 / 100000 then "Waxing Crescent"
    else if age < 922831 / 100000 then "First Quarter"
    else if age < 1291963 / 100000 then "Waxing Gibbous"
    else if age < 1661096 / 100000 then "Full Moon"
    else if age < 2030228 / 100000 then "Waning Gibbous"
    else if age < 2399361 / 100000 then "Last Quarter"
    else if age < 2768493 / 100000 then "Waning Crescent"
    else "New Moon"
  { phase := phase
    illumination := jsRound (illumination * 100)
    age := (jsRound (age * 10) : ℚ) / 10
    nextFullMoon := getNextPhaseDate wallNow age (14765 / 1000)
    nextNewMoon := getNextPhaseDate wallNow age synodicMonth }

/-! ## weather.ts: scoring -/

/-- types.ts `TideInfo` (the `rawData` passthrough field, never consulted by
the scoring logic, is omitted); `nextHigh` / `nextLow` are optional epoch-ms
instants. -/
structure TideInfo where
  height : ℚ
  state : String
  nextHigh : Option ℤ
  nextLow : Option ℤ
deriving DecidableEq

/-- types.ts `WeatherData`.  `windDirection` is the result of
`getWindDirection`, which in JS can be `undefined` (out-of-bounds array
read), hence `Option String`. -/
structure WeatherData where
  windSpeed : ℚ
  windDirection : Option String
  temperature : ℚ
  precipitation : ℚ
  cloudCover : ℚ
  pressure : ℚ
deriving DecidableEq

/-- weather.ts `calculateFishingScore` before its final clamp line:
base 70 plus the wind, temperature, cloud-cover, precipitation, pressure and
tide adjustments. -/
def rawFishingScore (weather : WeatherData) (tideInfo : Option TideInfo) : ℚ :=
  let score : ℚ := 70
  let score := if weather.windSpeed < 5 then score + 10
    else if weather.windSpeed > 20 then score - 20
    else if weather.windSpeed > 15 then score - 10
    else score
  let score := if weather.temperature ≥ 60 ∧ weather.temperature ≤ 75 then score + 10
    else if weather.temperature < 45 ∨ weather.temperature > 85 then score - 15
    else score - 5
  let score := if weather.cloudCover ≥ 40 ∧ weather.cloudCover ≤ 70 then score + 10
    else if weather.cloudCover > 90 then score - 5
    else score
  let score := if weather.precipitation > 50 then score - 20
    else if weather.precipitation > 30 then score - 10
    else score
  let score := if weather.pressure ≥ 1010 ∧ weather.pressure ≤ 1020 then score + 5
    else score
  match tideInfo with
  | some tide =>
    let score := if tide.state = "incoming" ∨ tide.state = "outgoing" then score + 10
      else score
    if tide.height > 1/2 ∧ tide.height < 2 then score + 5 else score
  | none => score

/-- weather.ts `calculateFishingScore`: the adjusted score clamped by
`Math.max(0, Math.min(100, score))`. -/
def calculateFishingScore (weather : WeatherData) (tideInfo : Option TideInfo) : ℚ :=
  max 0 (min 100 (rawFishingScore weather tideInfo))

/-- weather.ts `determineCondition`. -/
def determineCondition (score : ℚ) : String :=
  if score ≥ 70 then "Good"
  else if score ≥ 40 then "Okay"
  else "Poor"

/-- The compass-direction array of weather.ts `getWindDirection`. -/
def windDirections : List String :=
  ["N", "NE", "E", "SE", "S", "SW", "W", "NW"]

/-- weather.ts `getWindDirection`:
`directions[Math.round(((degrees || 0) % 360) / 45) % 8]`.
An absent `degrees` is replaced by 0 by `||`; a negative or too-large index
is an out-of-bounds array read, which in JS yields `undefined` (`none`). -/
def getWindDirection (degrees : Option ℚ) : Option String :=
  let d := jsOr degrees 0
  let index : ℤ := (jsRound (jsfmod d 360 / 45)).tmod 8
  if index < 0 then none else windDirections.get? index.toNat

/-- weather.ts `generateReasons`. -/
def generateReasons (weather : WeatherData) (tideInfo : Option TideInfo) : List String :=
  let reasons : List String := []
  let reasons := reasons ++
    [if weather.windSpeed < 5 then "Light winds under 5 mph - ideal for fishing"
     else if weather.windSpeed < 15 then "Moderate winds - good for surface activity"
     else "Strong winds may affect fishing conditions"]
  let reasons := reasons ++
    (if weather.temperature ≥ 60 ∧ weather.temperature ≤ 75 then
       ["Optimal water temperature for fish activity"]
     else if weather.temperature < 45 then
       ["Cold temperatures may reduce fish activity"]
     else if weather.temperature > 85 then
       ["Warm temperatures - fish may be deeper in water"]
     else [])
  let reasons := reasons ++
    (if weather.cloudCover ≥ 40 ∧ weather.cloudCover ≤ 70 then
       ["Partial cloud cover providing good visibility"]
     else if weather.cloudCover > 90 then
       ["Heavy cloud cover may affect fish feeding"]
     else [])
  let reasons := reasons ++
    (if weather.precipitation > 50 then
       ["High chance of rain may affect water conditions"]
     else if weather.precipitation < 20 then
       ["Clear weather conditions"]
     else [])
  match tideInfo with
  | some tide =>
    reasons ++
      (if tide.state = "incoming" then ["Incoming tide bringing food sources"]
       else if tide.state = "outgoing" then
         ["Outgoing tide concentrating fish in deeper areas"]
       else [])
  | none => reasons

/-! ## weather.ts: forecast timeline

The raw API payloads handed to `generateForecastTimeline` are dynamic JSON;
the sub-objects the function actually dereferences are modelled as
structures with `Option` fields (`none` = the field is absent). -/

/-- The `wind` sub-object of an OpenWeather payload. -/
structure WindObj where
  speed : Option ℚ
  deg : Option ℚ
deriving DecidableEq

/-- The `main` sub-object of an OpenWeather payload. -/
structure MainObj where
  temp : Option ℚ
  pressure : Option ℚ
deriving DecidableEq

/-- The `clouds` sub-object of an OpenWeather payload. -/
structure CloudsObj where
  all : Option ℚ
deriving DecidableEq

/-- The current-weather object: `wind`, `main`, `clouds` sub-objects, the
truthiness of the `rain` field, and the `dt` epoch-seconds stamp. -/
structure CurrentObj where
  wind : Option WindObj
  main : Option MainObj
  clouds : Option CloudsObj
  rain : Bool
  dt : ℤ
deriving DecidableEq

/-- One entry of `forecast.list`. -/
structure ForecastItem where
  main : Option MainObj
  wind : Option WindObj
  clouds : Option CloudsObj
  pop : Option ℚ
  dt : ℤ
deriving DecidableEq

/-- The argument of `generateForecastTimeline`: `weatherData.current` and
`weatherData.forecast?.list` (a JS array is truthy even when empty, so an
empty present list passes the structural check). -/
structure WeatherInput where
  current : Option CurrentObj
  forecast : Option (List ForecastItem)
deriving DecidableEq

/-- types.ts `TimelinePoint`: `timestamp` is epoch ms (`dt * 1000`). -/
structure TimelinePoint where
  timestamp : ℤ
  score : ℚ
  condition : String
  weather : WeatherData
  tide : Option TideInfo
  moonPhase : MoonPhase
  reasons : List String
deriving DecidableEq

/-- The body of the `forecast.list.forEach` loop of
`generateForecastTimeline`: `none` when the item is missing its `main`,
`wind` or `clouds` sub-object (the skip-with-warning branch), otherwise the
timeline point built from the item. -/
def forecastPointOf (mcos : ℚ → ℚ) (wallNow : ℤ) (tideData : Option TideInfo)
    (item : ForecastItem) : Option TimelinePoint :=
  match item.main, item.wind, item.clouds with
  | some m, some w, some c =>
    let weather : WeatherData :=
      { windSpeed := jsOr w.speed 0
        windDirection := getWindDirection w.deg
        temperature := jsOr m.temp 0
        precipitation := jsOr item.pop 0 * 100
        cloudCover := jsOr c.all 0
        pressure := jsOr m.pressure 1013 }
    let score := calculateFishingScore weather tideData
    some
      { timestamp := item.dt * 1000
        score := score
        condition := determineCondition score
        weather := weather
        tide := tideData
        moonPhase := getMoonPhase mcos wallNow (item.dt * 1000)
        reasons := generateReasons weather tideData }
  | _, _, _ => none

/-- weather.ts `generateForecastTimeline`.  The structural guard throws
`Invalid weather data format` when `current` or `forecast.list` is absent;
the surrounding catch rethrows it as the observable
`Failed to process weather forecast data` error.  The current point is built
with the `safe fallbacks` of the source (`|| 0`, `|| 1013`); a forecast item
missing `main`, `wind` or `clouds` is skipped. -/
def generateForecastTimeline (mcos : ℚ → ℚ) (wallNow : ℤ)
    (weatherData : WeatherInput) (tideData : Option TideInfo) :
    Except String (List TimelinePoint) :=
  match weatherData.current, weatherData.forecast with
  | some cur, some list =>
    let currentWeather : WeatherData :=
      { windSpeed := jsOr (cur.wind.bind WindObj.speed) 0
        windDirection := getWindDirection (cur.wind.bind WindObj.deg)
        temperature := jsOr (cur.main.bind MainObj.temp) 0
        precipitation := if cur.rain then 100 else 0
        cloudCover := jsOr (cur.clouds.bind CloudsObj.all) 0
        pressure := jsOr (cur.main.bind MainObj.pressure) 1013 }
    let currentScore := calculateFishingScore currentWeather tideData
    let currentPoint : TimelinePoint :=
      { timestamp := cur.dt * 1000
        score := currentScore
        condition := determineCondition currentScore
        weather := currentWeather
        tide := tideData
        moonPhase := getMoonPhase mcos wallNow (cur.dt * 1000)
        reasons := generateReasons currentWeather tideData }
    let forecastPoints := list.filterMap (forecastPointOf mcos wallNow tideData)
    Except.ok (currentPoint :: forecastPoints)
  | _, _ => Except.error "Failed to process weather forecast data"

/-- Validity of one `forecast.list` entry, exactly the guard
`!item?.main || !item?.wind || !item?.clouds` negated. -/
def validForecastItem (item : ForecastItem) : Bool :=
  item.main.isSome && item.wind.isSome && item.clouds.isSome

/-! ## tides.ts -/

/-- One processed tide sample: `time` epoch ms, `height` in metres, `type`
the upper-cased tide type string. -/
structure TideSample where
  time : ℤ
  height : ℚ
  type : String
deriving DecidableEq

/-- One raw `tide_data` entry as consumed by getTideData:
`tideHeight_mt` is the `parseFloat` result, with `none` standing for `NaN`
(a non-numeric string). -/
structure RawTideEntry where
  tideDateTime : ℤ
  tideHeight_mt : Option ℚ
  tide_type : String
deriving DecidableEq

/-- A raw entry that survives the
`!isNaN(tide.height) && tide.height > 0` filter. -/
def validRawTideEntry (tide : RawTideEntry) : Bool :=
  match tide.tideHeight_mt with
  | some h => decide (h > 0)
  | none => false

/-- tides.ts lines 60-67: concatenate today's and tomorrow's entries, map
them to samples, drop invalid heights, and sort ascending by time. -/
def allTidesOf (todayTides tomorrowTides : List RawTideEntry) : List TideSample :=
  ((todayTides ++ tomorrowTides).filterMap (fun tide =>
    match tide.tideHeight_mt with
    | some h =>
      if h > 0 then some { time := tide.tideDateTime, height := h, type := tide.tide_type.toUpper }
      else none
    | none => none)).mergeSort (fun a b => a.time ≤ b.time)

/-- tides.ts `findNextTide`. -/
def findNextTide (tideData : List TideSample) (type : String) (now : ℤ) :
    Option TideSample :=
  tideData.find? (fun tide => tide.type == type && tide.time > now)

/-- The bracket-search loop of `calculateCurrentTide` (lines 118-124): the
first adjacent pair with `tideData[i].time ≤ now < tideData[i+1].time`. -/
def findBracket : List TideSample → ℤ → Option (TideSample × TideSample)
  | a :: b :: rest, now =>
    if a.time ≤ now ∧ b.time > now then some (a, b)
    else findBracket (b :: rest) now
  | _, _ => none

/-- The bracketing pair used by `calculateCurrentTide`, including the
virtual-sample fallbacks (lines 127-149).  `setDate(±1)` on an epoch-ms
model is ±86400000 ms.  Note the source shifts `tideData[0].time` (the
FIRST sample's time) by one day in both fallback branches, while taking the
height and type of the last (resp. first) sample.  `none` only when the list
is empty, which the caller's `length < 2` guard rules out (in JS that case
would throw on the `tideData[0]` access). -/
def tideBracket (tideData : List TideSample) (now : ℤ) :
    Option (TideSample × TideSample) :=
  match tideData with
  | [] => none
  | first :: rest =>
    match findBracket (first :: rest) now with
    | some pn => some pn
    | none =>
      if now < first.time then
        some ({ (first :: rest).getLastD first with time := first.time - 86400000 }, first)
      else
        some ((first :: rest).getLastD first, { first with time := first.time + 86400000 })

/-- tides.ts `interpolateTideHeight`: the smoothstep cubic. -/
def interpolateTideHeight (h1 h2 progress : ℚ) : ℚ :=
  let p := progress
  let p2 := p * p
  let p3 := p2 * p
  h1 + (h2 - h1) * (-2 * p3 + 3 * p2)

/-- tides.ts `determineTideState`. -/
def determineTideState (prevTide nextTide : TideSample) (progress : ℚ) : String :=
  if prevTide.type ≠ nextTide.type ∧ prevTide.type = "HIGH" ∧ nextTide.type = "LOW" then
    "outgoing"
  else if prevTide.type ≠ nextTide.type ∧ prevTide.type = "LOW" ∧ nextTide.type = "HIGH" then
    "incoming"
  else
    let heightDiff := nextTide.height - prevTide.height
    let threshold : ℚ := 1/10
    if |heightDiff| < threshold then
      if progress < 1/2 then "incoming" else "outgoing"
    else if heightDiff > 0 then "incoming" else "outgoing"

/-- Lines 152-154 of `calculateCurrentTide`: progress through the cycle,
clamped to [0, 1]. -/
def tideProgress (prevTide nextTide : TideSample) (now : ℤ) : ℚ :=
  let totalDuration : ℚ := ((nextTide.time - prevTide.time : ℤ) : ℚ)
  let elapsedTime : ℚ := ((now - prevTide.time : ℤ) : ℚ)
  max 0 (min 1 (elapsedTime / totalDuration))

/-- tides.ts `calculateCurrentTide`: interpolated height (rounded to two
decimals) and tide state at `now`. -/
def calculateCurrentTide (tideData : List TideSample) (now : ℤ) :
    Option (ℚ × String) :=
  match tideBracket tideData now with
  | none => none
  | some (prevTide, nextTide) =>
    let progress := tideProgress prevTide nextTide now
    let height := interpolateTideHeight prevTide.height nextTide.height progress
    let state := determineTideState prevTide nextTide progress
    some (round2 height, state)

/-- The post-fetch processing of tides.ts `getTideData` (lines 56-98): build
the valid sorted sample list; with fewer than two samples return `none`
(the fail-soft null result); otherwise reconstruct the current tide and the
next high/low instants. -/
def processTideData (todayTides tomorrowTides : List RawTideEntry) (now : ℤ) :
    Option TideInfo :=
  let allTides := allTidesOf todayTides tomorrowTides
  if allTides.length < 2 then none
  else
    match calculateCurrentTide allTides now with
    | none => none
    | some (height, state) =>
      some
        { height := height
          state := state
          nextHigh := (findNextTide allTides "HIGH" now).map TideSample.time
          nextLow := (findNextTide allTides "LOW" now).map TideSample.time }

/-! ## Helper lemmas -/

/-- `filterMap` produces as many elements as there are list entries on which
the partial function succeeds. -/
theorem length_filterMap_eq_countP {α β : Type} (f : α → Option β) (p : α → Bool)
    (hfp : ∀ a, (f a).isSome = p a) :
    ∀ l : List α, (l.filterMap f).length = l.countP p := by
  intro l
  induction l with
  | nil => simp
  | cons a l ih =>
    rw [List.filterMap_cons, List.countP_cons]
    have h := hfp a
    cases hfa : f a with
    | none =>
      rw [hfa] at h
      simp [← h, ih]
    | some b =>
      rw [hfa] at h
      simp [← h, ih]

/-- `jsOr (some d) 0` is always `d`: when `d = 0` the default `0` coincides
with it. -/
theorem jsOr_some_zero (d : ℚ) : jsOr (some d) 0 = d := by
  rw [jsOr]
  split <;> simp_all

/-- The bracket loop finds nothing when every sample lies strictly in the
future of the query instant. -/
theorem findBracket_eq_none (l : List TideSample) (now : ℤ)
    (h : ∀ s ∈ l, now < s.time) : findBracket l now = none := by
  induction l with
  | nil => rfl
  | cons a l ih =>
    cases l with
    | nil => rfl
    | cons b m =>
      rw [findBracket]
      have ha : now < a.time := h a (by simp)
      rw [if_neg (by omega)]
      exact ih fun s hs => h s (by simp [hs])

/-! ## Claim theorems -/

/-- Claim C1 (counterexample): `getMoonPhase` is not deterministic across
call times.  With the same input instant (the reference new moon) but two
different wall-clock instants at the call, the two returned records differ
(in their `nextFullMoon` and `nextNewMoon` fields), for any interpretation
of `Math.cos` (here the constant-zero one). -/
theorem c1_counterexample :
    getMoonPhase (fun _ => 0) 0 947182440000 ≠
      getMoonPhase (fun _ => 0) 86400000 947182440000 := by
  norm_num [getMoonPhase, getMoonAge, getNextPhaseDate, jsfmod, jsTrunc, jsRound,
    synodicMonth, knownNewMoonMs, msPerDay, MoonPhase.mk.injEq]

/-- Claim C1 (amended): the `phase`, `illumination` and `age` fields of
`getMoonPhase` depend only on the input instant — two calls with the same
instant agree on them no matter when they are made — while `nextFullMoon`
and `nextNewMoon` are anchored to the wall-clock instant of the call: only
their offsets from the call instant are determined by the input. -/
theorem c1_phase_illumination_age_deterministic (mcos : ℚ → ℚ) (n₁ n₂ date : ℤ) :
    (getMoonPhase mcos n₁ date).phase = (getMoonPhase mcos n₂ date).phase ∧
    (getMoonPhase mcos n₁ date).illumination = (getMoonPhase mcos n₂ date).illumination ∧
    (getMoonPhase mcos n₁ date).age = (getMoonPhase mcos n₂ date).age ∧
    (getMoonPhase mcos n₁ date).nextFullMoon - n₁ =
      (getMoonPhase mcos n₂ date).nextFullMoon - n₂ ∧
    (getMoonPhase mcos n₁ date).nextNewMoon - n₁ =
      (getMoonPhase mcos n₂ date).nextNewMoon - n₂ := by
  refine ⟨rfl, rfl, rfl, ?_, ?_⟩ <;>
    simp [getMoonPhase, getNextPhaseDate]

/-- Claim C2 (counterexample): at the all-worst-case input
(wind 25 > 20, temperature 95 > 85, cloud cover 95 > 90, precipitation
60 > 50, pressure 990 outside [1010, 1020], no tide) the pre-clamp sum is
10 — not negative — and the reported score is 10, not 0. -/
theorem c2_counterexample :
    rawFishingScore ⟨25, some "N", 95, 60, 95, 990⟩ none = 10 ∧
    ¬ rawFishingScore ⟨25, some "N", 95, 60, 95, 990⟩ none < 0 ∧
    calculateFishingScore ⟨25, some "N", 95, 60, 95, 990⟩ none = 10 ∧
    calculateFishingScore ⟨25, some "N", 95, 60, 95, 990⟩ none ≠ 0 := by
  refine ⟨by norm_num [rawFishingScore], ?_, ?_, ?_⟩ <;>
    norm_num [calculateFishingScore, rawFishingScore]

/-- Claim C2 (amended): for every weather snapshot and optional tide
reading the reported score lies in [0, 100]; at the all-worst-case
combination the pre-clamp sum is 10 (the adjustments total −60 against the
base 70) and the reported score is 10. -/
theorem c2_score_bounds :
    (∀ (w : WeatherData) (t : Option TideInfo),
      0 ≤ calculateFishingScore w t ∧ calculateFishingScore w t ≤ 100) ∧
    rawFishingScore ⟨25, some "N", 95, 60, 95, 990⟩ none = 10 ∧
    calculateFishingScore ⟨25, some "N", 95, 60, 95, 990⟩ none = 10 := by
  refine ⟨fun w t => ⟨le_max_left 0 _, ?_⟩, by norm_num [rawFishingScore],
    by norm_num [calculateFishingScore, rawFishingScore]⟩
  exact max_le (by norm_num) (min_le_left _ _)

/-- Claim C8: the score engine yields 100 / `Good` on
(wind 3, temp 68, cloud 55, precip 10, pressure 1015, no tide) — the
pre-clamp sum being 105 — and 10 / `Poor` on
(wind 25, temp 95, cloud 95, precip 60, pressure 990, no tide). -/
theorem c8_concrete_scores :
    rawFishingScore ⟨3, some "N", 68, 10, 55, 1015⟩ none = 105 ∧
    calculateFishingScore ⟨3, some "N", 68, 10, 55, 1015⟩ none = 100 ∧
    determineCondition (calculateFishingScore ⟨3, some "N", 68, 10, 55, 1015⟩ none) = "Good" ∧
    rawFishingScore ⟨25, some "N", 95, 60, 95, 990⟩ none = 10 ∧
    calculateFishingScore ⟨25, some "N", 95, 60, 95, 990⟩ none = 10 ∧
    determineCondition (calculateFishingScore ⟨25, some "N", 95, 60, 95, 990⟩ none) = "Poor" := by
  have h1 : calculateFishingScore ⟨3, some "N", 68, 10, 55, 1015⟩ none = 100 := by
    norm_num [calculateFishingScore, rawFishingScore]
  have h2 : calculateFishingScore ⟨25, some "N", 95, 60, 95, 990⟩ none = 10 := by
    norm_num [calculateFishingScore, rawFishingScore]
  refine ⟨by norm_num [rawFishingScore], h1, ?_, by norm_num [rawFishingScore], h2, ?_⟩
  · rw [h1]
    norm_num [determineCondition]
  · rw [h2]
    norm_num [determineCondition]

/-- Claim C3: with exactly two valid samples — a HIGH of height 1.0 at
instant T and a LOW of height 0.2 at T+6h — querying at T+3h yields
progress 1/2, interpolated height 0.6 (the smoothstep cubic, rounded to two
decimals) and state `outgoing`, for every instant T. -/
theorem c3_two_sample_reconstruction (T : ℤ) :
    tideProgress ⟨T, 1, "HIGH"⟩ ⟨T + 21600000, 1/5, "LOW"⟩ (T + 10800000) = 1/2 ∧
    calculateCurrentTide [⟨T, 1, "HIGH"⟩, ⟨T + 21600000, 1/5, "LOW"⟩] (T + 10800000) =
      some (3/5, "outgoing") := by
  have hp : tideProgress ⟨T, 1, "HIGH"⟩ ⟨T + 21600000, 1/5, "LOW"⟩ (T + 10800000) = 1/2 := by
    rw [tideProgress]
    push_cast
    rw [show ((T:ℚ) + 21600000 - T) = 21600000 by ring,
        show ((T:ℚ) + 10800000 - T) = 10800000 by ring]
    norm_num
  refine ⟨hp, ?_⟩
  have hb : tideBracket [⟨T, 1, "HIGH"⟩, ⟨T + 21600000, 1/5, "LOW"⟩] (T + 10800000) =
      some (⟨T, 1, "HIGH"⟩, ⟨T + 21600000, 1/5, "LOW"⟩) := by
    rw [tideBracket, findBracket, if_pos (by dsimp only; omega)]
  have hi : interpolateTideHeight 1 (1/5) (1/2) = 3/5 := by
    rw [interpolateTideHeight]
    norm_num
  have hr : round2 (3/5) = 3/5 := by
    have h60 : jsRound ((3:ℚ)/5 * 100) = 60 := by
      rw [jsRound, Int.floor_eq_iff]
      norm_num
    rw [round2, h60]
    norm_num
  have hs : determineTideState ⟨T, 1, "HIGH"⟩ ⟨T + 21600000, 1/5, "LOW"⟩ (1/2) = "outgoing" := by
    rw [determineTideState, if_pos (by dsimp only; decide)]
  rw [calculateCurrentTide, hb]
  simp only [hp, hi, hr, hs]

/-- Claim C4 (counterexample): a current-weather object that is present but
missing its `wind` sub-object does NOT raise the structural error — the
builder returns a one-point timeline whose current point silently carries
the default wind speed 0. -/
theorem c4_counterexample :
    (generateForecastTimeline (fun _ => 0) 0
        ⟨some ⟨none, some ⟨some 68, some 1015⟩, some ⟨some 50⟩, false, 0⟩, some []⟩
        none).map (List.map fun p => p.weather.windSpeed) = Except.ok [0] := by
  rw [generateForecastTimeline]
  simp [jsOr, Except.map]

/-- Claim C4 (amended): the structural `MalformedInput` error is raised only
when the current-weather object itself (or the forecast list) is absent; a
present current object missing `wind` is processed with the silent default
wind speed 0 for the current point. -/
theorem c4_missing_wind_is_defaulted (mcos : ℚ → ℚ) (wallNow : ℤ) (cur : CurrentObj)
    (list : List ForecastItem) (tide : Option TideInfo) (hw : cur.wind = none) :
    (generateForecastTimeline mcos wallNow ⟨some cur, some list⟩ tide).map
      (fun l => l.head?.map fun p => p.weather.windSpeed) = Except.ok (some 0) ∧
    generateForecastTimeline mcos wallNow ⟨none, some list⟩ tide =
      Except.error "Failed to process weather forecast data" := by
  constructor
  · rw [generateForecastTimeline]
    simp [hw, jsOr, Except.map]
  · rfl

/-- Claim C4 (witness): the amended theorem applied to the concrete
wind-less current object. -/
theorem c4_witness :
    (generateForecastTimeline (fun _ => 0) 0
        ⟨some ⟨none, some ⟨some 68, some 1015⟩, some ⟨some 50⟩, false, 0⟩, some []⟩
        none).map (fun l => l.head?.map fun p => p.weather.windSpeed) =
      Except.ok (some 0) :=
  (c4_missing_wind_is_defaulted (fun _ => 0) 0
    ⟨none, some ⟨some 68, some 1015⟩, some ⟨some 50⟩, false, 0⟩ [] none rfl).1

/-- Claim C5 (counterexample): querying before the first sample, the virtual
previous sample takes the LAST sample's height and type but the FIRST
sample's time minus one day, not the last sample's time minus 24 hours:
with samples at times 0 and 21600000, the virtual previous sample sits at
−86400000, not at 21600000 − 86400000. -/
theorem c5_counterexample :
    tideBracket [⟨0, 1, "HIGH"⟩, ⟨21600000, 1/5, "LOW"⟩] (-1) =
      some (⟨-86400000, 1/5, "LOW"⟩, ⟨0, 1, "HIGH"⟩) ∧
    tideBracket [⟨0, 1, "HIGH"⟩, ⟨21600000, 1/5, "LOW"⟩] (-1) ≠
      some (⟨21600000 - 86400000, 1/5, "LOW"⟩, ⟨0, 1, "HIGH"⟩) := by
  have h1 : tideBracket [⟨0, 1, "HIGH"⟩, ⟨21600000, 1/5, "LOW"⟩] (-1) =
      some (⟨-86400000, 1/5, "LOW"⟩, ⟨0, 1, "HIGH"⟩) := by
    norm_num [tideBracket, findBracket]
  refine ⟨h1, ?_⟩
  rw [h1]
  simp only [ne_eq, Option.some.injEq, Prod.mk.injEq, TideSample.mk.injEq]
  norm_num

/-- Claim C5 (amended): for a sorted sample list queried strictly before the
first sample, the bracketing previous sample is virtual, carrying the LAST
sample's height and type but with time equal to the FIRST sample's time
minus one day (86400000 ms); the next sample is the first sample. -/
theorem c5_virtual_prev_sample (first : TideSample) (rest : List TideSample) (now : ℤ)
    (hsorted : (first :: rest).Pairwise (fun a b => a.time ≤ b.time))
    (hbefore : now < first.time) :
    tideBracket (first :: rest) now =
      some ({ (first :: rest).getLastD first with time := first.time - 86400000 }, first) := by
  have hall : ∀ s ∈ first :: rest, now < s.time := by
    intro s hs
    rcases List.mem_cons.mp hs with h | h
    · rw [h]
      exact hbefore
    · have h2 := (List.pairwise_cons.mp hsorted).1 s h
      omega
  rw [tideBracket, findBracket_eq_none _ _ hall, if_pos hbefore]

/-- Claim C5 (witness): the amended theorem applied to the concrete
two-sample list queried at −1 ms. -/
theorem c5_witness :
    tideBracket [⟨0, 1, "HIGH"⟩, ⟨21600000, 1/5, "LOW"⟩] (-1) =
      some ({ ([⟨0, 1, "HIGH"⟩, (⟨21600000, 1/5, "LOW"⟩ : TideSample)]).getLastD
        ⟨0, 1, "HIGH"⟩ with time := (⟨0, 1, "HIGH"⟩ : TideSample).time - 86400000 },
        ⟨0, 1, "HIGH"⟩) :=
  c5_virtual_prev_sample ⟨0, 1, "HIGH"⟩ [⟨21600000, 1/5, "LOW"⟩] (-1)
    (by simp) (by decide)

/-- Claim C6: with fewer than two valid samples after filtering (a sample
is invalid when its height is non-numeric or not strictly positive), tide
reconstruction returns the null reading; being a total function of this
embedding, it throws nothing. -/
theorem c6_too_few_samples_yields_none (todayTides tomorrowTides : List RawTideEntry)
    (now : ℤ)
    (h : (todayTides ++ tomorrowTides).countP validRawTideEntry < 2) :
    processTideData todayTides tomorrowTides now = none := by
  have hlen : (allTidesOf todayTides tomorrowTides).length =
      (todayTides ++ tomorrowTides).countP validRawTideEntry := by
    rw [allTidesOf, List.length_mergeSort]
    refine length_filterMap_eq_countP _ _ ?_ _
    intro a
    rw [validRawTideEntry]
    cases ha : a.tideHeight_mt with
    | none => simp [ha]
    | some x =>
      by_cases hx : x > 0 <;> simp [ha, hx]
  rw [processTideData, if_pos (by omega)]

/-- Claim C6 (witness): a single entry whose height failed to parse leaves
zero valid samples, and reconstruction returns the null reading. -/
theorem c6_witness : processTideData [⟨0, none, "High"⟩] [] 5 = none :=
  c6_too_few_samples_yields_none [⟨0, none, "High"⟩] [] 5 (by decide)

/-- Claim C7: the tide state is `outgoing` for a HIGH→LOW pair and
`incoming` for LOW→HIGH; for equal types it falls back to the progress
comparison inside the 0.1 m hysteresis band and to the sign of the height
difference outside it. -/
theorem c7_tide_state_cases (prevTide nextTide : TideSample) (progress : ℚ) :
    (prevTide.type = "HIGH" → nextTide.type = "LOW" →
      determineTideState prevTide nextTide progress = "outgoing") ∧
    (prevTide.type = "LOW" → nextTide.type = "HIGH" →
      determineTideState prevTide nextTide progress = "incoming") ∧
    (prevTide.type = nextTide.type → |nextTide.height - prevTide.height| < 1/10 →
      ((progress < 1/2 → determineTideState prevTide nextTide progress = "incoming") ∧
       (¬ progress < 1/2 → determineTideState prevTide nextTide progress = "outgoing"))) ∧
    (prevTide.type = nextTide.type → ¬ |nextTide.height - prevTide.height| < 1/10 →
      ((nextTide.height - prevTide.height > 0 →
         determineTideState prevTide nextTide progress = "incoming") ∧
       (nextTide.height - prevTide.height < 0 →
         determineTideState prevTide nextTide progress = "outgoing"))) := by
  refine ⟨?_, ?_, ?_, ?_⟩
  · intro h1 h2
    rw [determineTideState, if_pos ⟨by rw [h1, h2]; decide, h1, h2⟩]
  · intro h1 h2
    rw [determineTideState, if_neg (by rw [h1, h2]; decide),
      if_pos ⟨by rw [h1, h2]; decide, h1, h2⟩]
  · intro heq hlt
    rw [determineTideState, if_neg (by simp [heq]), if_neg (by simp [heq]), if_pos hlt]
    constructor <;> intro hp
    · rw [if_pos hp]
    · rw [if_neg hp]
  · intro heq hge
    rw [determineTideState, if_neg (by simp [heq]), if_neg (by simp [heq]), if_neg hge]
    constructor <;> intro hd
    · rw [if_pos hd]
    · rw [if_neg (by linarith)]

/-- Claim C7 (witness): the HIGH→LOW clause applied to a concrete pair. -/
theorem c7_witness :
    determineTideState ⟨0, 1, "HIGH"⟩ ⟨21600000, 1/5, "LOW"⟩ (1/2) = "outgoing" :=
  (c7_tide_state_cases ⟨0, 1, "HIGH"⟩ ⟨21600000, 1/5, "LOW"⟩ (1/2)).1 rfl rfl

/-- A forecast item yields a timeline point exactly when it passes the
structural validity check. -/
theorem forecastPointOf_isSome (mcos : ℚ → ℚ) (wallNow : ℤ) (tide : Option TideInfo)
    (a : ForecastItem) :
    (forecastPointOf mcos wallNow tide a).isSome = validForecastItem a := by
  rw [forecastPointOf, validForecastItem]
  cases a.main <;> cases a.wind <;> cases a.clouds <;> simp

/-- Claim C9: with a present current object and a five-item forecast list of
which exactly four items pass the structural check (one is missing its
`clouds` sub-object), the builder succeeds with a timeline of exactly
5 points: the current point plus the 4 valid forecast points. -/
theorem c9_single_invalid_item_skipped (mcos : ℚ → ℚ) (wallNow : ℤ) (cur : CurrentObj)
    (items : List ForecastItem) (tide : Option TideInfo)
    (hlen : items.length = 5) (hvalid : items.countP validForecastItem = 4) :
    (generateForecastTimeline mcos wallNow ⟨some cur, some items⟩ tide).map
      List.length = Except.ok 5 := by
  rw [generateForecastTimeline]
  simp only [Except.map, List.length_cons]
  rw [length_filterMap_eq_countP (forecastPointOf mcos wallNow tide)
    validForecastItem (forecastPointOf_isSome mcos wallNow tide) items, hvalid]

/-- Claim C9 (witness): five concrete items, the middle one missing
`clouds`, give a 5-point timeline. -/
theorem c9_witness :
    (generateForecastTimeline (fun _ => 0) 0
        ⟨some ⟨none, none, none, false, 0⟩, some
          [⟨some ⟨none, none⟩, some ⟨none, none⟩, some ⟨none⟩, none, 0⟩,
           ⟨some ⟨none, none⟩, some ⟨none, none⟩, some ⟨none⟩, none, 0⟩,
           ⟨some ⟨none, none⟩, some ⟨none, none⟩, none, none, 0⟩,
           ⟨some ⟨none, none⟩, some ⟨none, none⟩, some ⟨none⟩, none, 0⟩,
           ⟨some ⟨none, none⟩, some ⟨none, none⟩, some ⟨none⟩, none, 0⟩]⟩ none).map
      List.length = Except.ok 5 :=
  c9_single_invalid_item_skipped (fun _ => 0) 0 ⟨none, none, none, false, 0⟩ _ none
    (by decide) (by decide)

/-- Claim C10: on every non-negative finite input (and on an absent input,
treated as 0) `getWindDirection` returns one of the eight octant strings,
with near-360 values wrapping back to `N`; the non-negativity precondition
is necessary — a negative input produces an out-of-bounds index and the JS
`undefined` (`none`). -/
theorem c10_wind_direction_in_octants :
    (∀ d : ℚ, 0 ≤ d → getWindDirection (some d) ∈ windDirections.map some) ∧
    getWindDirection none = some "N" ∧
    getWindDirection (some 350) = some "N" ∧
    getWindDirection (some (-100)) = none := by
  refine ⟨?_, ?_, ?_, ?_⟩
  · intro d hd
    rw [getWindDirection, jsOr_some_zero]
    have hq : (0:ℚ) ≤ d / 360 := by positivity
    have hm0 : 0 ≤ jsfmod d 360 := by
      rw [jsfmod, jsTrunc, if_pos hq]
      have h1 : ((⌊d / 360⌋ : ℚ)) * 360 ≤ d := by
        rw [← le_div_iff₀ (by norm_num : (0:ℚ) < 360)]
        exact Int.floor_le (d / 360)
      linarith
    have hm1 : jsfmod d 360 < 360 := by
      rw [jsfmod, jsTrunc, if_pos hq]
      have h1 : d < ((⌊d / 360⌋ : ℚ) + 1) * 360 := by
        rw [← div_lt_iff₀ (by norm_num : (0:ℚ) < 360)]
        exact Int.lt_floor_add_one (d / 360)
      linarith
    have h0 : 0 ≤ jsRound (jsfmod d 360 / 45) := by
      rw [jsRound]
      refine Int.le_floor.mpr ?_
      have := div_nonneg hm0 (by norm_num : (0:ℚ) ≤ 45)
      push_cast
      linarith
    have h8 : jsRound (jsfmod d 360 / 45) ≤ 8 := by
      rw [jsRound]
      have hlt : jsfmod d 360 / 45 + 1/2 < ((9:ℤ):ℚ) := by
        have : jsfmod d 360 / 45 < 8 := by
          rw [div_lt_iff₀ (by norm_num : (0:ℚ) < 45)]
          linarith
        push_cast
        linarith
      have := Int.floor_lt.mpr hlt
      omega
    generalize hgen : jsRound (jsfmod d 360 / 45) = k at h0 h8 ⊢
    interval_cases k <;> decide
  · have h1 : jsTrunc ((0:ℚ) / 360) = 0 := by
      rw [jsTrunc, if_pos (by norm_num), Int.floor_eq_iff]
      norm_num
    have h2 : jsRound (jsfmod (jsOr none 0) 360 / 45) = 0 := by
      rw [show jsOr none 0 = (0:ℚ) from rfl, jsfmod, h1, jsRound, Int.floor_eq_iff]
      norm_num
    rw [getWindDirection, h2]
    decide
  · have h1 : jsTrunc ((350:ℚ) / 360) = 0 := by
      rw [jsTrunc, if_pos (by norm_num), Int.floor_eq_iff]
      norm_num
    have h2 : jsRound (jsfmod (jsOr (some 350) 0) 360 / 45) = 8 := by
      rw [jsOr_some_zero, jsfmod, h1, jsRound, Int.floor_eq_iff]
      norm_num
    rw [getWindDirection, h2]
    decide
  · have h1 : jsTrunc ((-100:ℚ) / 360) = 0 := by
      rw [jsTrunc, if_neg (by norm_num), Int.ceil_eq_iff]
      norm_num
    have h2 : jsRound (jsfmod (jsOr (some (-100)) 0) 360 / 45) = -2 := by
      rw [jsOr_some_zero, jsfmod, h1, jsRound, Int.floor_eq_iff]
      norm_num
    rw [getWindDirection, h2]
    decide

/-- Claim C10 (witness): the octant-membership clause applied at 90
degrees. -/
theorem c10_witness : getWindDirection (some 90) ∈ windDirections.map some :=
  c10_wind_direction_in_octants.1 90 (by norm_num)

end FishingForecast
